import Mathlib

/-
Verification of the host-trust / URL-construction / error-sanitization
pipeline of the waitlist demo service (src/main.rs).

The two actix-web handlers `vulnerable_waitlist` and `secure_waitlist` are
embedded as pure Lean functions.  The external URL-validating parser
(reqwest::Url::parse) is treated, as the spec prescribes, as a black box:
every definition below is parameterised by an arbitrary
`parse : String -> Except String Unit` (success, or failure with an error
text).  The raw value of the `Host` request header is modelled as an
`Option (List Nat)`: `none` when the header is absent, `some bytes`
when present, each entry a byte value.
-/

/-- An HTTP response: numeric status code and body text.  actix
constructors are embedded as their status codes: `Ok` is 200,
`BadRequest` is 400, `InternalServerError` is 500. -/
structure HttpResponse where
  status : Nat
  body : String
deriving DecidableEq, Repr

/-- The custom error type of src/main.rs (lines 6-9): a single message
string. -/
structure ApiError where
  message : String
deriving DecidableEq, Repr

/-- The `ResponseError` implementation for `ApiError` (src/main.rs lines
19-25): the framework turns the error into an `InternalServerError`
response whose body is the error message itself. -/
def ApiError.error_response (e : ApiError) : HttpResponse :=
  { status := 500, body := e.message }

/-- The application configuration (src/main.rs lines 28-33): the secret
api_key and the allowlist of trusted hosts. -/
structure AppState where
  api_key : String
  allowed_hosts : List String
deriving DecidableEq, Repr

/-- The concrete configuration constructed in `main` (src/main.rs lines
165-172). -/
def mainAppState : AppState :=
  { api_key := "88665751-288d-4175-852f-6519d79fdf1f"
  , allowed_hosts :=
      [ "my-app.com:8080"
      , "prod.my-app.com:8080"
      , "127.0.0.1:8080" ] }

/-- Models `http::HeaderValue::to_str` as called through
`.and_then(|h| h.to_str().ok())`: decoding a header value to a string
succeeds exactly when every byte is visible ASCII (32..126) or a
horizontal tab (9); the bytes are then read as their ASCII characters. -/
def is_visible_ascii (b : Nat) : Bool :=
  (32 ≤ b && b < 127) || b == 9

/-- Decoding of a raw header value to a string, per
`HeaderValue::to_str().ok()`. -/
def header_value_to_str (bytes : List Nat) : Option String :=
  if bytes.all is_visible_ascii then
    some (String.mk (bytes.map Char.ofNat))
  else
    none

/-- Models `req.headers().get("host").and_then(|h| h.to_str().ok())`
(src/main.rs lines 54-57 and line 103): `none` when the header is absent
or its value does not decode. -/
def get_host_header (rawHost : Option (List Nat)) : Option String :=
  rawHost.bind header_value_to_str

/-- Convenience: the byte sequence of an ASCII string, for building
concrete raw header values. -/
def strBytes (s : String) : List Nat :=
  s.data.map Char.toNat

/-- The backend URL built by the vulnerable handler (src/main.rs lines
61-64): the format string
https://HOST/v1/waitlist?api_key=KEY&email=EMAIL with host, key and
email interpolated verbatim. -/
def vulnerable_backend_url (host api_key email : String) : String :=
  "https://" ++ host ++ "/v1/waitlist?api_key=" ++ api_key ++ "&email=" ++ email

/-- The backend URL built by the secure handler (src/main.rs lines
124-127): the same format string, transcribed separately because the
source repeats it. -/
def secure_backend_url (host api_key email : String) : String :=
  "https://" ++ host ++ "/v1/waitlist?api_key=" ++ api_key ++ "&email=" ++ email

/-- The URL template as the spec words it: the literal string
https://HOST/v1/waitlist?api_key=KEY&email=EMAIL with no escaping of
host or email. -/
def spec_backend_url (host api_key email : String) : String :=
  "https://" ++ host ++ "/v1/waitlist?api_key=" ++ api_key ++ "&email=" ++ email

/-- The error message the vulnerable handler packs into its `ApiError`
(src/main.rs lines 84-87). -/
def vulnerable_error_message (url err : String) : String :=
  "Failed to construct backend request. URL: \x27" ++ url ++ "\x27, Error: " ++ err

/-- The vulnerable handler (src/main.rs lines 48-93): extract the host
(empty string when absent), build the backend URL, parse it; on success
answer 200 with the fixed waitlist confirmation, on failure return the
`ApiError` carrying the full URL and the parser error text. -/
def vulnerable_waitlist (parse : String → Except String Unit)
    (rawHost : Option (List Nat)) (email : String) (state : AppState) :
    Except ApiError HttpResponse :=
  let host := (get_host_header rawHost).getD ""
  let backend_url_str := vulnerable_backend_url host state.api_key email
  match parse backend_url_str with
  | Except.ok _ =>
      Except.ok
        { status := 200
        , body := "Thank you for your interest. You have been added to the waitlist." }
  | Except.error e =>
      Except.error { message := vulnerable_error_message backend_url_str e }

/-- The client-visible response of the vulnerable pipeline: actix renders
a returned `Err(ApiError)` through `ApiError.error_response`. -/
def vulnerable_response (parse : String → Except String Unit)
    (rawHost : Option (List Nat)) (email : String) (state : AppState) :
    HttpResponse :=
  match vulnerable_waitlist parse rawHost email state with
  | Except.ok r => r
  | Except.error e => e.error_response

/-- The secure handler (src/main.rs lines 97-152): reject with 400 and a
fixed body unless the host header is present and allowlisted; otherwise
build the backend URL and parse it; on success answer 200 with the fixed
launch-notification confirmation, on failure answer 500 with a fixed
generic body. -/
def secure_waitlist (parse : String → Except String Unit)
    (rawHost : Option (List Nat)) (email : String) (state : AppState) :
    HttpResponse :=
  match get_host_header rawHost with
  | some host =>
      if state.allowed_hosts.contains host then
        let backend_url_str := secure_backend_url host state.api_key email
        match parse backend_url_str with
        | Except.ok _ =>
            { status := 200
            , body := "Thank you for your interest. We will notify you when we are ready to launch." }
        | Except.error _ =>
            { status := 500
            , body := "Oops! Something went wrong. Please try again later." }
      else
        { status := 400, body := "Invalid \x27Host\x27 header provided." }
  | none => { status := 400, body := "Invalid \x27Host\x27 header provided." }

/-- The host-trust decision of the secure handler, read off the match on
lines 107-118 together with the later `host_header.unwrap()` on line
121: `some host` exactly when the header decoded and the host is
allowlisted, `none` otherwise. -/
def secure_host_decision (rawHost : Option (List Nat)) (state : AppState) :
    Option String :=
  match get_host_header rawHost with
  | some host => if state.allowed_hosts.contains host then some host else none
  | none => none

/-- The host the vulnerable handler proceeds with (src/main.rs lines
54-58): the decoded header value, or the empty string when the header is
absent or undecodable. -/
def vulnerable_host (rawHost : Option (List Nat)) : String :=
  (get_host_header rawHost).getD ""

/-- One request served by a handler, with the shared configuration
threaded explicitly: the handlers of src/main.rs never mutate the shared
`AppState`, so each step returns it unchanged. -/
def secure_handler_step (parse : String → Except String Unit)
    (rawHost : Option (List Nat)) (email : String) (state : AppState) :
    HttpResponse × AppState :=
  (secure_waitlist parse rawHost email state, state)

/-- The vulnerable handler as a state-threading step; the state is
likewise never mutated. -/
def vulnerable_handler_step (parse : String → Except String Unit)
    (rawHost : Option (List Nat)) (email : String) (state : AppState) :
    HttpResponse × AppState :=
  (vulnerable_response parse rawHost email state, state)

/-- Serving the same request `n` times in sequence, threading the
configuration state through every step. -/
def serve_repeated (step : AppState → HttpResponse × AppState) :
    Nat → AppState → List HttpResponse × AppState
  | 0, st => ([], st)
  | n + 1, st =>
      let p := step st
      let q := serve_repeated step n p.2
      (p.1 :: q.1, q.2)

/-- State of the incremental UTF-8 validator: `pending` counts the
continuation bytes still expected for the current code point, and
`lo`..`hi` bounds the value of the next expected byte. -/
structure Utf8State where
  pending : Nat
  lo : Nat
  hi : Nat
deriving DecidableEq

/-- The initial validator state: no continuation byte pending. -/
def utf8_init : Utf8State :=
  { pending := 0, lo := 0, hi := 0 }

/-- One byte of UTF-8 validation, following the table of RFC 3629:
one-byte sequences are 0x00..0x7F; two-byte leads are 0xC2..0xDF;
three-byte leads are 0xE0 (second byte 0xA0..0xBF), 0xE1..0xEC and
0xEE..0xEF (second byte any continuation byte 0x80..0xBF), and 0xED
(second byte 0x80..0x9F, excluding surrogates); four-byte leads are
0xF0 (second byte 0x90..0xBF), 0xF1..0xF3, and 0xF4 (second byte
0x80..0x8F).  The bounds on the first continuation byte rule out
overlong encodings, surrogates and code points beyond 0x10FFFF. -/
def utf8Next (st : Utf8State) (b : Nat) : Option Utf8State :=
  match st.pending with
  | 0 =>
      if b < 0x80 then some utf8_init
      else if 0xC2 ≤ b && b ≤ 0xDF then some { pending := 1, lo := 0x80, hi := 0xBF }
      else if b == 0xE0 then some { pending := 2, lo := 0xA0, hi := 0xBF }
      else if (0xE1 ≤ b && b ≤ 0xEC) || b == 0xEE || b == 0xEF then
        some { pending := 2, lo := 0x80, hi := 0xBF }
      else if b == 0xED then some { pending := 2, lo := 0x80, hi := 0x9F }
      else if b == 0xF0 then some { pending := 3, lo := 0x90, hi := 0xBF }
      else if 0xF1 ≤ b && b ≤ 0xF3 then some { pending := 3, lo := 0x80, hi := 0xBF }
      else if b == 0xF4 then some { pending := 3, lo := 0x80, hi := 0x8F }
      else none
  | k + 1 =>
      if st.lo ≤ b && b ≤ st.hi then some { pending := k, lo := 0x80, hi := 0xBF }
      else none

/-- One validation step lifted to the failure-aware state. -/
def utf8Step (o : Option Utf8State) (b : Nat) : Option Utf8State :=
  o.bind (fun st => utf8Next st b)

/-- Validity of a byte sequence as UTF-8: run the incremental validator
over every byte; the sequence is valid when no byte was rejected and no
continuation byte is still pending at the end. -/
def utf8Valid (l : List Nat) : Bool :=
  (l.foldl utf8Step (some utf8_init)).elim false (fun st => st.pending == 0)

/-- A concrete sample parser standing in for the external URL parser in
closed evaluations: it fails, with a fixed error text, on any candidate
string containing a space (a character illegal in a URL authority), and
succeeds otherwise. -/
def demo_url_parse (s : String) : Except String Unit :=
  if s.data.contains ' ' then Except.error "invalid domain character"
  else Except.ok ()

/-
Helper lemmas shared by several claim theorems.
-/

/-- The character data of the backend URL built by the vulnerable
handler, split at its interpolation points. -/
theorem vulnerable_backend_url_data (host key email : String) :
    (vulnerable_backend_url host key email).data =
      "https://".data ++ (host.data ++ ("/v1/waitlist?api_key=".data ++
        (key.data ++ ("&email=".data ++ email.data)))) := by
  simp only [vulnerable_backend_url, String.data_append, List.append_assoc]

/-- The character data of the backend URL built by the secure handler,
split at its interpolation points. -/
theorem secure_backend_url_data (host key email : String) :
    (secure_backend_url host key email).data =
      "https://".data ++ (host.data ++ ("/v1/waitlist?api_key=".data ++
        (key.data ++ ("&email=".data ++ email.data)))) := by
  simp only [secure_backend_url, String.data_append, List.append_assoc]

/-- The character data of the error message of the vulnerable handler,
split at its interpolation points. -/
theorem vulnerable_error_message_data (url err : String) :
    (vulnerable_error_message url err).data =
      "Failed to construct backend request. URL: \x27".data ++
        (url.data ++ ("\x27, Error: ".data ++ err.data)) := by
  simp only [vulnerable_error_message, String.data_append, List.append_assoc]

/-- Folding the UTF-8 validator over visible ASCII bytes keeps it in
the initial state: every such byte is below 0x80. -/
theorem foldl_utf8Step_ascii :
    ∀ l : List Nat, l.all is_visible_ascii = true →
      l.foldl utf8Step (some utf8_init) = some utf8_init := by
  intro l
  induction l with
  | nil => intro _; rfl
  | cons b rest ih =>
      intro h
      rw [List.all_cons, Bool.and_eq_true] at h
      have hlt : b < 0x80 := by
        have hb := h.1
        simp [is_visible_ascii] at hb
        rcases hb with ⟨_, h2⟩ | h9 <;> omega
      rw [List.foldl_cons]
      have hstep : utf8Step (some utf8_init) b = some utf8_init := by
        simp [utf8Step, utf8Next, utf8_init, hlt]
      rw [hstep]
      exact ih h.2

/-- A byte sequence of visible ASCII characters (and tabs) is valid
UTF-8. -/
theorem all_visible_ascii_utf8Valid (l : List Nat)
    (h : l.all is_visible_ascii = true) : utf8Valid l = true := by
  unfold utf8Valid
  rw [foldl_utf8Step_ascii l h]
  rfl

/-- A raw header value that decodes to a string consists of visible
ASCII bytes. -/
theorem header_value_to_str_visible (bytes : List Nat) (s : String)
    (h : header_value_to_str bytes = some s) :
    bytes.all is_visible_ascii = true := by
  by_cases hall : bytes.all is_visible_ascii = true
  · exact hall
  · rw [header_value_to_str, if_neg hall] at h
    exact Option.noConfusion h

/-
Claim theorems.
-/

/-- Claim C8: backend URL construction is the same in both pipelines.
For every host, api_key and email, the vulnerable and the secure handler
build the same string, which is exactly the literal template
https://HOST/v1/waitlist?api_key=KEY&email=EMAIL with host and email
interpolated verbatim. -/
theorem backend_url_construction_identical (host api_key email : String) :
    vulnerable_backend_url host api_key email = secure_backend_url host api_key email ∧
    secure_backend_url host api_key email = spec_backend_url host api_key email ∧
    vulnerable_backend_url host api_key email =
      "https://" ++ host ++ "/v1/waitlist?api_key=" ++ api_key ++ "&email=" ++ email :=
  ⟨rfl, rfl, rfl⟩

/-- Claim C9: both pipelines are deterministic and stateless per
request.  Serving the identical request any number of times, with the
shared configuration threaded through every step, yields the same
response every time and leaves the configuration unchanged. -/
theorem pipelines_stateless_idempotent (parse : String → Except String Unit)
    (rawHost : Option (List Nat)) (email : String) (st : AppState) (n : Nat) :
    serve_repeated (secure_handler_step parse rawHost email) n st =
      (List.replicate n (secure_waitlist parse rawHost email st), st) ∧
    serve_repeated (vulnerable_handler_step parse rawHost email) n st =
      (List.replicate n (vulnerable_response parse rawHost email st), st) := by
  induction n with
  | zero => exact ⟨rfl, rfl⟩
  | succ n ih =>
      constructor
      · simp [serve_repeated, secure_handler_step, List.replicate_succ, ih.1]
      · simp [serve_repeated, vulnerable_handler_step, List.replicate_succ, ih.2]

/-- Claim C7: the vulnerable host-trust decision is total and always
accepts.  The handler proceeds with the empty string when the header is
absent and with the decoded header value otherwise; its response never
depends on the allowlist; and the response status is always 200 or 500,
never the 400 of a rejection. -/
theorem vulnerable_always_accepts (rawHost : Option (List Nat)) :
    (get_host_header rawHost = none → vulnerable_host rawHost = "") ∧
    (∀ h : String, get_host_header rawHost = some h → vulnerable_host rawHost = h) ∧
    (∀ (parse : String → Except String Unit) (email key : String)
        (al1 al2 : List String),
        vulnerable_response parse rawHost email { api_key := key, allowed_hosts := al1 } =
          vulnerable_response parse rawHost email { api_key := key, allowed_hosts := al2 }) ∧
    (∀ (parse : String → Except String Unit) (email : String) (st : AppState),
        (vulnerable_response parse rawHost email st).status = 200 ∨
          (vulnerable_response parse rawHost email st).status = 500) := by
  refine ⟨?_, ?_, ?_, ?_⟩
  · intro h
    simp [vulnerable_host, h]
  · intro h hh
    simp [vulnerable_host, hh]
  · intro parse email key al1 al2
    rfl
  · intro parse email st
    cases hpp : parse (vulnerable_backend_url ((get_host_header rawHost).getD "")
        st.api_key email) with
    | ok u =>
        left
        simp [vulnerable_response, vulnerable_waitlist, hpp]
    | error e =>
        right
        simp [vulnerable_response, vulnerable_waitlist, ApiError.error_response, hpp]

/-- Claim C7 witness: with no Host header the vulnerable handler
proceeds with the empty string. -/
theorem vulnerable_always_accepts_witness : vulnerable_host none = "" :=
  (vulnerable_always_accepts none).1 rfl

/-- Claim C5: for every request to the secure pipeline whose host header
is missing, undecodable or not allowlisted, the response is exactly the
400 client error with the fixed body, and its status is in the 400
class, never the 500 class. -/
theorem secure_rejection_client_error (parse : String → Except String Unit)
    (rawHost : Option (List Nat)) (email : String) (st : AppState)
    (hrej : ∀ h : String, get_host_header rawHost = some h →
      st.allowed_hosts.contains h = false) :
    secure_waitlist parse rawHost email st =
      { status := 400, body := "Invalid \x27Host\x27 header provided." } ∧
    400 ≤ (secure_waitlist parse rawHost email st).status ∧
    (secure_waitlist parse rawHost email st).status < 500 := by
  cases hh : get_host_header rawHost with
  | none => refine ⟨?_, ?_, ?_⟩ <;> simp [secure_waitlist, hh]
  | some host =>
      have hc : host ∉ st.allowed_hosts := by simpa using hrej host hh
      refine ⟨?_, ?_, ?_⟩ <;> simp [secure_waitlist, hh, hc]

/-- Claim C5 witness: the secure handler rejects a request with no Host
header with the fixed 400 response. -/
theorem secure_rejection_client_error_witness :
    secure_waitlist demo_url_parse none "a@b.com" mainAppState =
      { status := 400, body := "Invalid \x27Host\x27 header provided." } :=
  (secure_rejection_client_error demo_url_parse none "a@b.com" mainAppState
    (fun h hc => by simp [get_host_header] at hc)).1

/-- Claim C3: the host-trust decision of the secure pipeline accepts a
claimed host h exactly when the header is present (and decodes) with
value h and h is a member of the configured allowlist under exact string
match; in every other case the request is rejected with the fixed
rejection body. -/
theorem secure_host_trust_allowlist (rawHost : Option (List Nat)) (st : AppState) :
    (∀ h : String,
        secure_host_decision rawHost st = some h ↔
          (get_host_header rawHost = some h ∧ st.allowed_hosts.contains h = true)) ∧
    (∀ (parse : String → Except String Unit) (email : String),
        (secure_host_decision rawHost st = none ↔
          (secure_waitlist parse rawHost email st).body =
            "Invalid \x27Host\x27 header provided.")) := by
  cases hh : get_host_header rawHost with
  | none =>
      constructor
      · intro h
        simp [secure_host_decision, hh]
      · intro parse email
        simp [secure_host_decision, secure_waitlist, hh]
  | some host =>
      by_cases hc : st.allowed_hosts.contains host = true
      · have hcm : host ∈ st.allowed_hosts := by simpa using hc
        constructor
        · intro h
          constructor
          · intro hd
            simp [secure_host_decision, hh, hcm] at hd
            subst hd
            exact ⟨rfl, hc⟩
          · rintro ⟨hg, hmem⟩
            injection hg with hg
            subst hg
            simp [secure_host_decision, hh, hcm]
        · intro parse email
          constructor
          · intro hd
            exfalso
            simp [secure_host_decision, hh, hcm] at hd
          · intro hb
            exfalso
            have hbody : (secure_waitlist parse rawHost email st).body ≠
                "Invalid \x27Host\x27 header provided." := by
              cases hpp : parse (secure_backend_url host st.api_key email) with
              | ok u => simp [secure_waitlist, hh, hcm, hpp]
              | error e => simp [secure_waitlist, hh, hcm, hpp]
            exact absurd hb hbody
      · have hc2 : st.allowed_hosts.contains host = false := by
          cases hcc : st.allowed_hosts.contains host
          · rfl
          · exact absurd hcc hc
        have hcmn : host ∉ st.allowed_hosts := by simpa using hc2
        constructor
        · intro h
          constructor
          · intro hd
            exfalso
            simp [secure_host_decision, hh, hcmn] at hd
          · rintro ⟨hg, hmem⟩
            exfalso
            injection hg with hg
            subst hg
            rw [hc2] at hmem
            exact Bool.noConfusion hmem
        · intro parse email
          simp [secure_host_decision, secure_waitlist, hh, hc2, hcmn]

/-- Claim C3 witness: an allowlisted host presented in the header is
accepted by the secure host-trust decision. -/
theorem secure_host_trust_allowlist_witness :
    secure_host_decision (some (strBytes "prod.my-app.com:8080")) mainAppState =
      some "prod.my-app.com:8080" :=
  ((secure_host_trust_allowlist (some (strBytes "prod.my-app.com:8080")) mainAppState).1
    "prod.my-app.com:8080").mpr ⟨by decide, by decide⟩

/-- Claim C1: whenever the secure pipeline reaches URL construction and
the parse fails, the client-visible response is exactly the fixed 500
with body Oops! Something went wrong. Please try again later.; that body
does not contain the configured secret api_key as a substring, does not
contain the candidate URL, and is independent of the api_key value. -/
theorem secure_construction_failure_sanitized
    (parse : String → Except String Unit) (rawHost : Option (List Nat))
    (email : String) (st : AppState) (host e : String)
    (hh : get_host_header rawHost = some host)
    (hmem : st.allowed_hosts.contains host = true)
    (hp : parse (secure_backend_url host st.api_key email) = Except.error e) :
    secure_waitlist parse rawHost email st =
      { status := 500, body := "Oops! Something went wrong. Please try again later." } ∧
    ¬ (mainAppState.api_key.data <:+:
        (secure_waitlist parse rawHost email st).body.data) ∧
    ¬ ((secure_backend_url host st.api_key email).data <:+:
        (secure_waitlist parse rawHost email st).body.data) ∧
    (∀ (parse2 : String → Except String Unit) (st2 : AppState) (e2 : String),
        st2.allowed_hosts = st.allowed_hosts →
        parse2 (secure_backend_url host st2.api_key email) = Except.error e2 →
        (secure_waitlist parse2 rawHost email st2).body =
          (secure_waitlist parse rawHost email st).body) := by
  have hcm : host ∈ st.allowed_hosts := by simpa using hmem
  have hresp : secure_waitlist parse rawHost email st =
      { status := 500, body := "Oops! Something went wrong. Please try again later." } := by
    simp [secure_waitlist, hh, hcm, hp]
  refine ⟨hresp, ?_, ?_, ?_⟩
  · rw [hresp]
    decide
  · intro hinf
    rw [hresp] at hinf
    have hslash : '/' ∈ (secure_backend_url host st.api_key email).data := by
      rw [secure_backend_url_data]
      exact List.mem_append_left _ (by decide)
    have hmem2 := hinf.subset hslash
    exact absurd hmem2 (by decide)
  · intro parse2 st2 e2 hal hp2
    have hcm2 : host ∈ st2.allowed_hosts := by rw [hal]; exact hcm
    have hresp2 : secure_waitlist parse2 rawHost email st2 =
        { status := 500, body := "Oops! Something went wrong. Please try again later." } := by
      simp [secure_waitlist, hh, hcm2, hp2]
    rw [hresp, hresp2]

/-- Claim C1 witness: an allowlisted host with an email containing a
space makes URL construction fail, and the secure pipeline answers with
the fixed generic 500 body. -/
theorem secure_construction_failure_sanitized_witness :
    secure_waitlist demo_url_parse (some (strBytes "my-app.com:8080")) "a b" mainAppState =
      { status := 500, body := "Oops! Something went wrong. Please try again later." } :=
  (secure_construction_failure_sanitized demo_url_parse (some (strBytes "my-app.com:8080"))
    "a b" mainAppState "my-app.com:8080" "invalid domain character"
    (by decide) (by decide) (by rfl)).1

/-- Claim C2: for every request whose URL construction fails, the
vulnerable pipeline answers 500 with a body that is exactly the failure
detail string, and that body contains the full candidate URL, the secret
api_key, and the parser error text as substrings. -/
theorem vulnerable_construction_failure_leaks
    (parse : String → Except String Unit) (rawHost : Option (List Nat))
    (email : String) (st : AppState) (e : String)
    (hp : parse (vulnerable_backend_url (vulnerable_host rawHost) st.api_key email) =
      Except.error e) :
    vulnerable_response parse rawHost email st =
      { status := 500
      , body := vulnerable_error_message
          (vulnerable_backend_url (vulnerable_host rawHost) st.api_key email) e } ∧
    (vulnerable_backend_url (vulnerable_host rawHost) st.api_key email).data <:+:
      (vulnerable_response parse rawHost email st).body.data ∧
    st.api_key.data <:+: (vulnerable_response parse rawHost email st).body.data ∧
    e.data <:+: (vulnerable_response parse rawHost email st).body.data := by
  have hp2 : parse (vulnerable_backend_url ((get_host_header rawHost).getD "")
      st.api_key email) = Except.error e := hp
  have hresp : vulnerable_response parse rawHost email st =
      { status := 500
      , body := vulnerable_error_message
          (vulnerable_backend_url (vulnerable_host rawHost) st.api_key email) e } := by
    simp [vulnerable_response, vulnerable_waitlist, ApiError.error_response,
      vulnerable_host, hp2]
  have hurl : (vulnerable_backend_url (vulnerable_host rawHost) st.api_key email).data <:+:
      (vulnerable_response parse rawHost email st).body.data := by
    rw [hresp]
    show (vulnerable_backend_url (vulnerable_host rawHost) st.api_key email).data <:+:
      (vulnerable_error_message
        (vulnerable_backend_url (vulnerable_host rawHost) st.api_key email) e).data
    refine ⟨"Failed to construct backend request. URL: \x27".data,
      "\x27, Error: ".data ++ e.data, ?_⟩
    rw [vulnerable_error_message_data]
    simp [List.append_assoc]
  refine ⟨hresp, hurl, ?_, ?_⟩
  · have hkey : st.api_key.data <:+:
        (vulnerable_backend_url (vulnerable_host rawHost) st.api_key email).data := by
      refine ⟨"https://".data ++ ((vulnerable_host rawHost).data ++
        "/v1/waitlist?api_key=".data), "&email=".data ++ email.data, ?_⟩
      rw [vulnerable_backend_url_data]
      simp [List.append_assoc]
    exact hkey.trans hurl
  · rw [hresp]
    show e.data <:+:
      (vulnerable_error_message
        (vulnerable_backend_url (vulnerable_host rawHost) st.api_key email) e).data
    refine ⟨"Failed to construct backend request. URL: \x27".data ++
      ((vulnerable_backend_url (vulnerable_host rawHost) st.api_key email).data ++
        "\x27, Error: ".data), [], ?_⟩
    rw [vulnerable_error_message_data]
    simp [List.append_assoc]

/-- Claim C2 witness: with the claimed host bad host (whose space makes
URL construction fail) the response body of the vulnerable pipeline
contains the configured secret api_key. -/
theorem vulnerable_construction_failure_leaks_witness :
    mainAppState.api_key.data <:+:
      (vulnerable_response demo_url_parse (some (strBytes "bad host"))
        "a@b.com" mainAppState).body.data :=
  (vulnerable_construction_failure_leaks demo_url_parse (some (strBytes "bad host"))
    "a@b.com" mainAppState "invalid domain character" (by rfl)).2.2.1

set_option maxRecDepth 100000 in
/-- Claim C6: with an allowlisted host and a well-formed email (URL
parsing succeeds), each pipeline answers 200 with its own fixed
confirmation text, and neither body contains the claimed host or the
configured secret api_key. -/
theorem success_fixed_responses
    (parse : String → Except String Unit) (rawHost : Option (List Nat))
    (email : String) (host : String)
    (hh : get_host_header rawHost = some host)
    (hmem : mainAppState.allowed_hosts.contains host = true)
    (hp : parse (secure_backend_url host mainAppState.api_key email) = Except.ok ()) :
    secure_waitlist parse rawHost email mainAppState =
      { status := 200
      , body := "Thank you for your interest. We will notify you when we are ready to launch." } ∧
    vulnerable_response parse rawHost email mainAppState =
      { status := 200
      , body := "Thank you for your interest. You have been added to the waitlist." } ∧
    ¬ (host.data <:+: (secure_waitlist parse rawHost email mainAppState).body.data) ∧
    ¬ (host.data <:+: (vulnerable_response parse rawHost email mainAppState).body.data) ∧
    ¬ (mainAppState.api_key.data <:+:
        (secure_waitlist parse rawHost email mainAppState).body.data) ∧
    ¬ (mainAppState.api_key.data <:+:
        (vulnerable_response parse rawHost email mainAppState).body.data) := by
  have hcm : host ∈ mainAppState.allowed_hosts := by simpa using hmem
  have hsec : secure_waitlist parse rawHost email mainAppState =
      { status := 200
      , body := "Thank you for your interest. We will notify you when we are ready to launch." } := by
    simp [secure_waitlist, hh, hcm, hp]
  have hp2 : parse (vulnerable_backend_url ((get_host_header rawHost).getD "")
      mainAppState.api_key email) = Except.ok () := by
    rw [hh]
    exact hp
  have hvul : vulnerable_response parse rawHost email mainAppState =
      { status := 200
      , body := "Thank you for your interest. You have been added to the waitlist." } := by
    simp [vulnerable_response, vulnerable_waitlist, hp2]
  have hhosts : host = "my-app.com:8080" ∨ host = "prod.my-app.com:8080" ∨
      host = "127.0.0.1:8080" := by
    simpa [mainAppState] using hcm
  refine ⟨hsec, hvul, ?_, ?_, ?_, ?_⟩
  · rw [hsec]
    rcases hhosts with rfl | rfl | rfl <;> decide
  · rw [hvul]
    rcases hhosts with rfl | rfl | rfl <;> decide
  · rw [hsec]
    decide
  · rw [hvul]
    decide

/-- Claim C6 witness: the allowlisted host my-app.com:8080 with email
a@b.com succeeds on both pipelines; the secure pipeline answers its
fixed confirmation. -/
theorem success_fixed_responses_witness :
    secure_waitlist demo_url_parse (some (strBytes "my-app.com:8080")) "a@b.com" mainAppState =
      { status := 200
      , body := "Thank you for your interest. We will notify you when we are ready to launch." } :=
  (success_fixed_responses demo_url_parse (some (strBytes "my-app.com:8080")) "a@b.com"
    "my-app.com:8080" (by decide) (by decide) (by rfl)).1

/-- Claim C10: a Host header value that is present but not valid UTF-8
is treated by the secure pipeline exactly like a missing header: the
extraction yields none, the response equals the missing-header response,
namely the fixed 400 rejection; and conversely any decoded host came
from a valid UTF-8 (indeed visible ASCII) header value. -/
theorem secure_non_utf8_host_rejected
    (parse : String → Except String Unit) (email : String) (st : AppState)
    (bytes : List Nat) (hbad : utf8Valid bytes = false) :
    get_host_header (some bytes) = none ∧
    secure_waitlist parse (some bytes) email st = secure_waitlist parse none email st ∧
    secure_waitlist parse (some bytes) email st =
      { status := 400, body := "Invalid \x27Host\x27 header provided." } ∧
    (∀ (bytes2 : List Nat) (h : String),
        get_host_header (some bytes2) = some h → utf8Valid bytes2 = true) := by
  have hnone : header_value_to_str bytes = none := by
    by_cases hall : bytes.all is_visible_ascii = true
    · exfalso
      rw [all_visible_ascii_utf8Valid bytes hall] at hbad
      exact Bool.noConfusion hbad
    · rw [header_value_to_str, if_neg hall]
  have hg : get_host_header (some bytes) = none := by
    simp [get_host_header, hnone]
  refine ⟨hg, ?_, ?_, ?_⟩
  · simp [secure_waitlist, get_host_header, hnone]
  · simp [secure_waitlist, hg]
  · intro bytes2 h hh2
    have hs : header_value_to_str bytes2 = some h := by
      simpa [get_host_header] using hh2
    exact all_visible_ascii_utf8Valid bytes2 (header_value_to_str_visible bytes2 h hs)

/-- Claim C10 witness: the single byte 0xFF is not valid UTF-8 and the
secure pipeline rejects a request carrying it as Host header value with
the fixed 400 response. -/
theorem secure_non_utf8_host_rejected_witness :
    secure_waitlist demo_url_parse (some [255]) "a@b.com" mainAppState =
      { status := 400, body := "Invalid \x27Host\x27 header provided." } :=
  (secure_non_utf8_host_rejected demo_url_parse "a@b.com" mainAppState [255]
    (by decide)).2.2.1

/-- Claim C4 (evidence against the claimed crash): at the malformed
claimed host bad host, whose space makes URL construction fail, the
vulnerable handler of src/main.rs does not abort the process: its body
(lines 74-92) matches on the parse result instead of asserting success,
and it produces an HTTP response - the 500 whose body is the failure
detail - contradicting the doc comment on lines 41-47 that announces an
unwrap-induced crash. -/
theorem vulnerable_malformed_host_yields_http_response :
    vulnerable_response demo_url_parse (some (strBytes "bad host")) "a@b.com" mainAppState =
      { status := 500
      , body := vulnerable_error_message
          (vulnerable_backend_url "bad host" mainAppState.api_key "a@b.com")
          "invalid domain character" } := by
  rfl
